import Mathlib

/-!
# Sky Flight — verification of the flight-dynamics / camera / illumination core

Shallow embedding of the Sky Flight repository's core modules over exact
real arithmetic:

* `Earth` — coordinate transforms and the day/night illumination model
  (`src/js/earth.js`);
* `Aircraft` — the flight dynamics model (aircraft module);
* `Camera` — the camera controller (camera module).

JavaScript numbers are modelled as real numbers (`ℝ`); `Math.sin`, `Math.cos`,
`Math.acos`, `Math.atan2`, `Math.sqrt` become their exact real counterparts;
the JS remainder operator `%` (sign of the dividend, truncated division) is
modelled by `jsMod`.  Methods that would throw a `TypeError` at runtime
(property access on `null`/`undefined`, calling a missing method) are
modelled with `Except String`.
-/

open Real

noncomputable section

/-- 3-component vector, modelling `THREE.Vector3`. -/
structure V3 where
  x : ℝ
  y : ℝ
  z : ℝ

namespace V3

/-- `THREE.Vector3.add` (componentwise). -/
def add (a b : V3) : V3 := ⟨a.x + b.x, a.y + b.y, a.z + b.z⟩

/-- `THREE.Vector3.multiplyScalar`. -/
def smul (c : ℝ) (a : V3) : V3 := ⟨c * a.x, c * a.y, c * a.z⟩

/-- `THREE.Vector3.length`. -/
def len (a : V3) : ℝ := Real.sqrt (a.x ^ 2 + a.y ^ 2 + a.z ^ 2)

end V3

/-- `THREE.MathUtils.clamp( value, min, max ) = Math.max( min, Math.min( max, value ) )`. -/
def clamp (value lo hi : ℝ) : ℝ := max lo (min hi value)

/-- `THREE.MathUtils.lerp( a, b, t ) = a + ( b - a ) * t`. -/
def lerp (a b t : ℝ) : ℝ := a + (b - a) * t

/-- `THREE.MathUtils.degToRad`. -/
def degToRad (d : ℝ) : ℝ := d * (Real.pi / 180)

/-- Truncation toward zero, as used by the JS `%` operator. -/
def rtrunc (x : ℝ) : ℤ := if 0 ≤ x then ⌊x⌋ else -⌊-x⌋

/-- The JavaScript remainder operator `a % n`: remainder with the sign of the
dividend, `a - n * trunc(a / n)`. -/
def jsMod (a n : ℝ) : ℝ := a - n * (rtrunc (a / n) : ℤ)

/-- `Math.atan2(y, x)` over the reals (signed zeros are identified, as reals
have a single zero): angle of the point `(x, y)` in `(-π, π]`. -/
def atan2 (y x : ℝ) : ℝ :=
  if 0 < x then Real.arctan (y / x)
  else if x < 0 then
    (if 0 ≤ y then Real.arctan (y / x) + Real.pi else Real.arctan (y / x) - Real.pi)
  else -- x = 0
    (if 0 < y then Real.pi / 2 else if y < 0 then -(Real.pi / 2) else 0)

namespace Earth

/-- `Earth.sceneRadius = 100` (Three.js units). -/
def sceneRadius : ℝ := 100

/-- `Earth.radius = 6371` (km). -/
def radius : ℝ := 6371

/-- `Earth.latLonToVector3(lat, lon, altitude)` (src/js/earth.js lines 205-216):

    phi   = (90 - lat) * π/180
    theta = (lon + 180) * π/180
    r     = sceneRadius + altitude
    (x, y, z) = (-r sin φ cos θ, r cos φ, r sin φ sin θ). -/
def latLonToVector3 (lat lon altitude : ℝ) : V3 :=
  let phi := (90 - lat) * (Real.pi / 180)
  let theta := (lon + 180) * (Real.pi / 180)
  let r := sceneRadius + altitude
  ⟨-r * Real.sin phi * Real.cos theta,
    r * Real.cos phi,
    r * Real.sin phi * Real.sin theta⟩

/-- `Earth.vector3ToLatLon(position)` (src/js/earth.js lines 223-231):

    radius   = |position|
    altitude = radius - sceneRadius
    lat = 90 - acos(y / radius) * 180/π
    lon = ((atan2(z, -x) * 180/π) - 180 + 360) % 360 - 180. -/
def vector3ToLatLon (p : V3) : ℝ × ℝ × ℝ :=
  let r := p.len
  let altitude := r - sceneRadius
  let lat := 90 - Real.arccos (p.y / r) * (180 / Real.pi)
  let lon := jsMod ((atan2 p.z (-p.x)) * (180 / Real.pi) - 180 + 360) 360 - 180
  (lat, lon, altitude)

end Earth

/-! ## Flight Dynamics Model (the Aircraft module) -/

/-- Rotation about the x-axis by `θ` (right-handed, THREE.js convention). -/
def rotX (θ : ℝ) (v : V3) : V3 :=
  ⟨v.x, Real.cos θ * v.y - Real.sin θ * v.z, Real.sin θ * v.y + Real.cos θ * v.z⟩

/-- Rotation about the y-axis by `θ`. -/
def rotY (θ : ℝ) (v : V3) : V3 :=
  ⟨Real.cos θ * v.x + Real.sin θ * v.z, v.y, -Real.sin θ * v.x + Real.cos θ * v.z⟩

/-- Rotation about the z-axis by `θ`. -/
def rotZ (θ : ℝ) (v : V3) : V3 :=
  ⟨Real.cos θ * v.x - Real.sin θ * v.y, Real.sin θ * v.x + Real.cos θ * v.y, v.z⟩

/-- `THREE.Vector3.applyEuler(new THREE.Euler(x, y, z, 'YXZ'))`: THREE's
rotation order `'YXZ'` is the matrix product `Ry(y) · Rx(x) · Rz(z)`, so the
vector is rotated by `Rz` first and `Ry` last. -/
def applyEulerYXZ (xAngle yAngle zAngle : ℝ) (v : V3) : V3 :=
  rotY yAngle (rotX xAngle (rotZ zAngle v))

/-- An aircraft type specification (`Aircraft.types[...]`, immutable).
Rendering-only attributes (emoji, colors) are not modelled. -/
structure AircraftSpec where
  name : String
  speed : ℝ
  maxSpeed : ℝ
  minSpeed : ℝ
  handling : ℝ
  scale : ℝ

/-- The per-aircraft flight state (`Aircraft.state`).  `rotation` is the
`THREE.Euler` field of the JS state record, which no code ever writes after
initialization.  Airports are carried as `(lat, lon)` pairs and
`flightStartTime` as a real timestamp. -/
structure AircraftState where
  position : V3
  velocity : V3
  rotation : V3
  speed : ℝ
  altitude : ℝ
  heading : ℝ
  pitch : ℝ
  roll : ℝ
  isFlying : Bool
  takeoffAirport : Option (ℝ × ℝ)
  destinationAirport : Option (ℝ × ℝ)
  flightStartTime : Option ℝ

/-- One control-input record (`Aircraft.input`): pitch/roll/yaw/throttle. -/
structure ControlInput where
  pitch : ℝ
  roll : ℝ
  yaw : ℝ
  throttle : ℝ

/-- The mutable module-level fields of the Aircraft singleton: the selected
spec (`currentType`, `null` before the first `setType`), whether `mesh` and
`group` objects exist, and the flight state. -/
structure AircraftModule where
  currentType : Option AircraftSpec
  hasMesh : Bool
  hasGroup : Bool
  state : AircraftState

namespace Aircraft

/-- `Aircraft.types.cessna`. -/
def cessna : AircraftSpec := ⟨"cessna", 300, 400, 100, 1.0, 0.3⟩

/-- `Aircraft.types.airliner`. -/
def airliner : AircraftSpec := ⟨"airliner", 850, 1000, 300, 0.7, 0.5⟩

/-- `Aircraft.types.jet`. -/
def jet : AircraftSpec := ⟨"jet", 1500, 2000, 500, 1.5, 0.35⟩

/-- Key lookup in the `Aircraft.types` object: `none` for a key outside the
closed set `{cessna, airliner, jet}` (JS `undefined`). -/
def types (t : String) : Option AircraftSpec :=
  if t = "cessna" then some cessna
  else if t = "airliner" then some airliner
  else if t = "jet" then some jet
  else none

/-- The initial `Aircraft.state` literal (src/unnamed/part_002 lines 50-63). -/
def initialState : AircraftState :=
  { position := ⟨0, 0, 0⟩, velocity := ⟨0, 0, 0⟩, rotation := ⟨0, 0, 0⟩,
    speed := 0, altitude := 10, heading := 0, pitch := 0, roll := 0,
    isFlying := false, takeoffAirport := none, destinationAirport := none,
    flightStartTime := none }

/-- The Aircraft module before `init`/`setType` run: no spec, no mesh. -/
def initialModule : AircraftModule :=
  { currentType := none, hasMesh := false, hasGroup := false,
    state := initialState }

/-- `Aircraft.setType(type)` (lines 94-121).  An unknown type name is NOT an
error: the JS logs `console.warn('Unknown aircraft type:', type)` and falls
back to `'cessna'` (`types[type] || types.cessna` via the reassignment of
`type`).  The selected spec is stored, `state.speed` is reset to the spec's
cruise speed, and the mesh is (re)created. -/
def setType (t : String) (m : AircraftModule) : AircraftModule :=
  let spec := (types t).getD cessna
  { m with currentType := some spec,
           hasMesh := true,
           state := { m.state with speed := spec.speed } }

/-- `Aircraft.takeoff(airport)` (lines 446-459).  When `currentType` is still
`null` (no `setType` ever ran) the JS throws a `TypeError` at the
`this.currentType.speed` read, which propagates to the caller; this is
modelled as `Except.error`.  (The JS mutates position/altitude/heading/
pitch/roll before reaching the throwing read; the error case of this model
does not track those partial writes.)  `now` stands for `Date.now()`. -/
def takeoff (airport : ℝ × ℝ) (now : ℝ) (m : AircraftModule) :
    Except String AircraftModule :=
  match m.currentType with
  | none => .error "TypeError: Cannot read properties of null (reading speed)"
  | some spec =>
      .ok { m with state :=
        { m.state with
            position := Earth.latLonToVector3 airport.1 airport.2 2,
            altitude := 2, heading := 0, pitch := 0, roll := 0,
            speed := spec.speed, isFlying := true,
            takeoffAirport := some airport,
            flightStartTime := some now } }

/-- The physics body of `Aircraft.update` (src/unnamed/part_002 lines
337-421) is split below into named per-field stages, composed by
`updateCore`: integrate controls into pitch/roll/heading, coordinated turn,
throttle lag plus clamp, angle clamps, heading normalization by the JS `%`
operator, auto-stabilization on exactly-zero input, YXZ-Euler forward
vector, scaled velocity, position integration, and the min/max altitude
clamp against the sphere (`Earth.sceneRadius + 0.5` / `+ 50`).
`THREE.Vector3.normalize()` divides by `length() || 1`, so a zero-length
position is left at the origin by the floor clamp.

The tick's pitch value: integrate, clamp to `[-80, 80]`, auto-stabilize by
`* 0.98` when the pitch input channel is exactly zero. -/
def newPitch (deltaTime : ℝ) (spec : AircraftSpec) (st : AircraftState)
    (input : ControlInput) : ℝ :=
  let pitch1 := st.pitch + input.pitch * spec.handling * 60 * deltaTime
  let pitch2 := clamp pitch1 (-80) 80
  if input.pitch = 0 then pitch2 * 0.98 else pitch2

/-- The tick's roll value: integrate, clamp to `[-60, 60]`, auto-stabilize. -/
def newRoll (deltaTime : ℝ) (spec : AircraftSpec) (st : AircraftState)
    (input : ControlInput) : ℝ :=
  let roll1 := st.roll + input.roll * spec.handling * 60 * deltaTime
  let roll2 := clamp roll1 (-60) 60
  if input.roll = 0 then roll2 * 0.98 else roll2

/-- The tick's heading: yaw integration, coordinated turn from the (updated,
unclamped) roll, then the JS normalization `(heading + 360) % 360`. -/
def newHeading (deltaTime : ℝ) (spec : AircraftSpec) (st : AircraftState)
    (input : ControlInput) : ℝ :=
  let roll1 := st.roll + input.roll * spec.handling * 60 * deltaTime
  let heading1 := st.heading + input.yaw * spec.handling * 30 * deltaTime
  let heading2 := heading1 + roll1 * 0.5 * deltaTime
  jsMod (heading2 + 360) 360

/-- The tick's speed: first-order throttle lag, clamped to the spec range. -/
def newSpeed (deltaTime : ℝ) (spec : AircraftSpec) (st : AircraftState)
    (input : ControlInput) : ℝ :=
  let targetSpeed := st.speed + input.throttle * 200
  clamp (st.speed + (targetSpeed - st.speed) * deltaTime) spec.minSpeed spec.maxSpeed

/-- The tick's forward vector: the YXZ Euler rotation of `(1, 0, 0)` by the
post-clamp pitch/heading/roll converted to radians. -/
def tickForward (deltaTime : ℝ) (spec : AircraftSpec) (st : AircraftState)
    (input : ControlInput) : V3 :=
  applyEulerYXZ (degToRad (newPitch deltaTime spec st input))
    (degToRad (newHeading deltaTime spec st input))
    (degToRad (newRoll deltaTime spec st input)) ⟨1, 0, 0⟩

/-- The tick's velocity: `forward * (speed/3600 * dt * 0.01)`. -/
def tickVelocity (deltaTime : ℝ) (spec : AircraftSpec) (st : AircraftState)
    (input : ControlInput) : V3 :=
  V3.smul (newSpeed deltaTime spec st input / 3600 * deltaTime * 0.01)
    (tickForward deltaTime spec st input)

def updateCore (deltaTime : ℝ) (spec : AircraftSpec) (st : AircraftState)
    (input : ControlInput) : AircraftState :=
  let pitch3 := newPitch deltaTime spec st input
  let roll3 := newRoll deltaTime spec st input
  let heading3 := newHeading deltaTime spec st input
  let speed1 := newSpeed deltaTime spec st input
  let velocity := tickVelocity deltaTime spec st input
  let position1 := V3.add st.position velocity
  let distFromCenter := position1.len
  let minAltitude := Earth.sceneRadius + 0.5
  let maxAltitude := Earth.sceneRadius + 50
  if distFromCenter < minAltitude then
    { st with
        position := if distFromCenter = 0 then position1
          else V3.smul (minAltitude / distFromCenter) position1,
        velocity := velocity, speed := speed1, altitude := 0.5,
        heading := heading3, pitch := pitch3, roll := roll3 }
  else if maxAltitude < distFromCenter then
    { st with
        position := V3.smul (maxAltitude / distFromCenter) position1,
        velocity := velocity, speed := speed1, altitude := 50,
        heading := heading3, pitch := pitch3, roll := roll3 }
  else
    { st with
        position := position1,
        velocity := velocity, speed := speed1,
        altitude := distFromCenter - Earth.sceneRadius,
        heading := heading3, pitch := pitch3, roll := roll3 }

/-- `Aircraft.update(deltaTime)` (lines 334-421): early (no-op) return when
`!this.state.isFlying || !this.mesh`; otherwise reads
`this.currentType.handling`, which throws a `TypeError` if no aircraft type
was ever selected.  The per-tick control input is passed as an argument
(the JS reads the module field `this.input`, written by `setInput`). -/
def update (deltaTime : ℝ) (m : AircraftModule) (input : ControlInput) :
    Except String AircraftModule :=
  if !(m.state.isFlying && m.hasMesh) then .ok m
  else
    match m.currentType with
    | none => .error "TypeError: Cannot read properties of null (reading handling)"
    | some spec => .ok { m with state := updateCore deltaTime spec m.state input }

/-- `Aircraft.setInput(input)` (lines 427-432): every channel is clamped to
`[-1, 1]` before being stored. -/
def setInput (raw : ControlInput) : ControlInput :=
  ⟨clamp raw.pitch (-1) 1, clamp raw.roll (-1) 1,
    clamp raw.yaw (-1) 1, clamp raw.throttle (-1) 1⟩

/-- `Aircraft.getFlightPhase` — this method does not exist anywhere in the
repository: the Aircraft module (src/unnamed/part_002) defines no
`getFlightPhase`, and no other file adds one, even though the camera module
calls `aircraft.getFlightPhase()` and the HUD and audio modules listen for a
`flightPhaseChanged` event that nothing dispatches.  Modelled as the absent
member `none`. -/
def getFlightPhase : Option (AircraftModule → String) := none

end Aircraft

/-- A flying cessna at heading 0, roll 0, used by the heading counterexample. -/
def headingCexModule : AircraftModule :=
  { currentType := some Aircraft.cessna, hasMesh := true, hasGroup := true,
    state := { position := ⟨102, 0, 0⟩, velocity := ⟨0, 0, 0⟩,
               rotation := ⟨0, 0, 0⟩, speed := 300, altitude := 2,
               heading := 0, pitch := 0, roll := 0, isFlying := true,
               takeoffAirport := none, destinationAirport := none,
               flightStartTime := none } }

/-- The Scenario A aircraft state: at `(lat, lon) = (0, 0)`, altitude 2,
heading/pitch/roll 0, speed 300 km/h, flying. -/
def scenarioAState : AircraftState :=
  { position := Earth.latLonToVector3 0 0 2, velocity := ⟨0, 0, 0⟩,
    rotation := ⟨0, 0, 0⟩, speed := 300, altitude := 2, heading := 0,
    pitch := 0, roll := 0, isFlying := true, takeoffAirport := some (0, 0),
    destinationAirport := none, flightStartTime := some 0 }

/-- The Scenario A module: a flying cessna in the Scenario A state. -/
def scenarioAModule : AircraftModule :=
  { currentType := some Aircraft.cessna, hasMesh := true, hasGroup := true,
    state := scenarioAState }

/-- Zero input on all four channels. -/
def zeroInput : ControlInput := ⟨0, 0, 0, 0⟩

/-! ## C5: the illumination model (`Earth.updateDayNight`) -/

namespace Earth

/-- `Earth.getLocalHour(longitude)` (src/js/earth.js lines 191-196):
`(utcHours + longitude/15 + 24) % 24`, where `utcHours` is
`getUTCHours() + getUTCMinutes()/60` — wall-clock time, an external input
passed here as a parameter. -/
def getLocalHour (utcHours lon : ℝ) : ℝ := jsMod (utcHours + lon / 15 + 24) 24

/-- The target night-overlay opacity of `Earth.updateDayNight`
(src/js/earth.js lines 160-179): mode `"night"` forces 1, `"day"` forces 0,
and any other mode string computes the auto ramp from the local solar hour:
`1 - (h - 6)` on `[6,7]`, `h - 18` on `[18,19]`, `0` on the open interval
`(7,18)`, and `1` otherwise. -/
def nightTargetOpacity (mode : String) (localHour : ℝ) : ℝ :=
  if mode = "night" then 1
  else if mode = "day" then 0
  else
    if 6 ≤ localHour ∧ localHour ≤ 7 then 1 - (localHour - 6)
    else if 18 ≤ localHour ∧ localHour ≤ 19 then localHour - 18
    else if 7 < localHour ∧ localHour < 18 then 0
    else 1

/-- The per-tick smoothing step (line 183):
`opacity += (nightOpacity - currentOpacity) * 0.02`. -/
def stepOpacity (target current : ℝ) : ℝ := current + (target - current) * 0.02

/-- `Earth.updateDayNight(position, mode)` (lines 157-184), returning the
new stored overlay opacity.  Returns the opacity unchanged when the
night-lights layer was never created (`if (!this.nightLights) return`). -/
def updateDayNight (hasNightLights : Bool) (opacity : ℝ) (mode : String)
    (lon utcHours : ℝ) : ℝ :=
  if !hasNightLights then opacity
  else stepOpacity (nightTargetOpacity mode (getLocalHour utcHours lon)) opacity

end Earth

/-! ## Camera Controller (the Camera module, src/unnamed/part_003) -/

/-- Static view parameters `{distance, height, fov}`. -/
structure ViewParams where
  distance : ℝ
  height : ℝ
  fov : ℝ

/-- The camera transition record.  `src`/`dst` model the JS `from`/`to`
fields (`from` is a Lean keyword).  The JS initializes `from`/`to` to
`null`, but they are only dereferenced while `active` is true, which the
module's API establishes only after `setView` stored real parameters in
them; the model therefore carries plain `ViewParams`. -/
structure CameraTransition where
  active : Bool
  progress : ℝ
  src : ViewParams
  dst : ViewParams
  duration : ℝ

/-- The mutable fields of the Camera singleton: current view name, the
interpolated state, the transition, shake `{intensity, time}`, the
transition-tracked base FOV, the smoothed current FOV, and the FOV actually
pushed to the Three.js camera (`this.camera.fov`). -/
structure CameraModule where
  currentView : String
  state : ViewParams
  transition : CameraTransition
  shakeIntensity : ℝ
  shakeTime : ℝ
  baseFOV : ℝ
  currentFOV : ℝ
  cameraFov : ℝ

namespace Camera

/-- `Camera.views = ['thirdPerson', 'cockpit', 'overhead']`. -/
def views : List String := ["thirdPerson", "cockpit", "overhead"]

/-- `Camera.viewSettings`: per-view static parameters; an unknown key is JS
`undefined` (unreachable through the guarded API), given junk zeros here. -/
def viewSettings (v : String) : ViewParams :=
  if v = "thirdPerson" then ⟨5, 2, 60⟩
  else if v = "cockpit" then ⟨0, 0.2, 90⟩
  else if v = "overhead" then ⟨20, 15, 45⟩
  else ⟨0, 0, 0⟩

/-- `Camera.easeInOutCubic(t)` (lines 230-234). -/
def easeInOutCubic (t : ℝ) : ℝ :=
  if t < 0.5 then 4 * t * t * t else 1 - (-2 * t + 2) ^ 3 / 2

/-- `Camera.setView(view, animate)` (lines 70-85): an unknown view name is
ignored; animating into a different view captures the current interpolated
state as the transition source and the target view's static parameters as
its destination, resets progress and activates; otherwise the state (and
the camera's fov) snaps to the target parameters.  Either way the current
view name is updated. -/
def setView (view : String) (animate : Bool) (m : CameraModule) :
    CameraModule :=
  if view ∉ views then m
  else if animate && (m.currentView != view) then
    { m with
        transition := { active := true, progress := 0, src := m.state,
                        dst := viewSettings view,
                        duration := m.transition.duration },
        currentView := view }
  else
    { m with state := viewSettings view,
             cameraFov := (viewSettings view).fov,
             currentView := view }

/-- The transition-animation block of `Camera.update` (lines 110-138):
advance progress by `dt/duration`, clamp to 1 and deactivate at completion,
then interpolate distance/height/fov with the ease-in-out-cubic curve and
track `baseFOV`. -/
def transStage (dt : ℝ) (m : CameraModule) : CameraModule :=
  if m.transition.active then
    let p1 := m.transition.progress + dt / m.transition.duration
    let p := if 1 ≤ p1 then (1 : ℝ) else p1
    let act : Bool := if 1 ≤ p1 then false else true
    let t := easeInOutCubic p
    let st : ViewParams :=
      ⟨lerp m.transition.src.distance m.transition.dst.distance t,
        lerp m.transition.src.height m.transition.dst.height t,
        lerp m.transition.src.fov m.transition.dst.fov t⟩
    { m with transition := { m.transition with active := act, progress := p },
             state := st, baseFOV := st.fov }
  else m

/-- The speed-FOV block of `Camera.update` (lines 141-145):
`targetFOV = baseFOV + (speed/maxSpeed) * 15`, smoothed by a fixed
per-frame `lerp` fraction `0.05` and pushed to the camera. -/
def fovStage (speed maxSpeed : ℝ) (m : CameraModule) : CameraModule :=
  let speedRatio := speed / maxSpeed
  let targetFOV := m.baseFOV + speedRatio * 15
  let cf := lerp m.currentFOV targetFOV 0.05
  { m with currentFOV := cf, cameraFov := cf }

/-- The shake block of `Camera.update` (lines 149-157): intensity `0.05`
during `takeoff_roll`/`climbing`, `0.02` during `taxiing`, otherwise
decaying toward 0 by `lerp(·, 0, 0.05)`; shake time advances by `dt * 20`.
Unreachable in the shipped code: the phase lookup preceding it throws. -/
def shakeStage (dt : ℝ) (phase : String) (m : CameraModule) : CameraModule :=
  let intensity :=
    if phase = "takeoff_roll" ∨ phase = "climbing" then (0.05 : ℝ)
    else if phase = "taxiing" then 0.02
    else lerp m.shakeIntensity 0 0.05
  { m with shakeIntensity := intensity, shakeTime := m.shakeTime + dt * 20 }

/-- `Camera.update(aircraft, deltaTime)` (lines 106-223): the camera module
state after the call, paired with the call's outcome.  No pose update runs
unless the aircraft is in active flight (`isFlying` and a group object).
Mutations happen in source order: the transition block, then the speed-FOV
block (whose `aircraft.currentType.maxSpeed` read throws when no type is
selected), and then line 148 calls `aircraft.getFlightPhase()` — a method
that exists nowhere in the repository — so every flying tick throws a
`TypeError` there, after the transition and FOV writes have been applied
and before any shake write.  The pose computation (lines 159-222), equally
unreachable, writes only the camera's world pose and is not modelled. -/
def update (m : CameraModule) (a : AircraftModule) (dt : ℝ) :
    CameraModule × Except String Unit :=
  if !(a.state.isFlying && a.hasGroup) then (m, .ok ())
  else
    let m1 := transStage dt m
    match a.currentType with
    | none =>
        (m1, .error "TypeError: Cannot read properties of null (reading maxSpeed)")
    | some spec =>
        let m2 := fovStage a.state.speed spec.maxSpeed m1
        match Aircraft.getFlightPhase with
        | none => (m2, .error "TypeError: aircraft.getFlightPhase is not a function")
        | some f => (shakeStage dt (f a) m2, .ok ())

end Camera

/-- The initial Camera module state (lines 7-54): third-person view,
state `(5, 2, 60)`, inactive transition of duration `0.5`, zero shake,
base/current FOV 60.  The JS `transition.from/to` are `null`; the model
seeds them with the third-person parameters (never read while inactive). -/
def cameraInitial : CameraModule :=
  { currentView := "thirdPerson", state := ⟨5, 2, 60⟩,
    transition := ⟨false, 0, ⟨5, 2, 60⟩, ⟨5, 2, 60⟩, 0.5⟩,
    shakeIntensity := 0, shakeTime := 0, baseFOV := 60, currentFOV := 60,
    cameraFov := 60 }

/-- Folding the per-tick camera update over a list of tick durations. -/
def Camera.tickFold (a : AircraftModule) (m : CameraModule) (L : List ℝ) :
    CameraModule :=
  L.foldl (fun cm dt => (Camera.update cm a dt).1) m

/-- A camera module mid-setup: an active fresh transition from the
third-person parameters to the cockpit parameters over 0.5 s. -/
def cameraTransModule : CameraModule :=
  { cameraInitial with
      currentView := "cockpit",
      transition := ⟨true, 0, ⟨5, 2, 60⟩, ⟨0, 0.2, 90⟩, 0.5⟩ }

/-! ## C9: single-writer discipline for the aircraft state -/

/-- The per-tick world: the aircraft module (owned by the Flight Dynamics
Model), the camera module, and the night-overlay opacity owned by the Earth
module (with its layer-exists flag).  `Game.animate` (src/js/main.js lines
349-372) threads exactly this state through one tick. -/
structure World where
  aircraft : AircraftModule
  camera : CameraModule
  nightOpacity : ℝ
  hasNightLights : Bool

/-- `Camera.update(Aircraft, deltaTime)` as invoked by the tick loop
(src/js/main.js line 357): writes the camera module only — including when
the call throws at the missing `getFlightPhase`, every write it performed
was to camera fields. -/
def Camera.updateW (w : World) (dt : ℝ) : World :=
  { w with camera := (Camera.update w.camera w.aircraft dt).1 }

/-- `Earth.updateDayNight(Aircraft.getPosition(), dayNightMode)` as invoked
by the tick loop (src/js/main.js lines 360-362): reads the aircraft
position through `vector3ToLatLon` and writes the stored overlay opacity
only. -/
def Earth.updateDayNightW (w : World) (mode : String) (utcHours : ℝ) :
    World :=
  let lon := (Earth.vector3ToLatLon w.aircraft.state.position).2.1
  { w with
      nightOpacity :=
        Earth.updateDayNight w.hasNightLights w.nightOpacity mode lon utcHours }

@[ext] theorem V3.ext_xyz {a b : V3} (hx : a.x = b.x) (hy : a.y = b.y)
    (hz : a.z = b.z) : a = b := by
  cases a; cases b; simp_all

@[ext] theorem ViewParams.ext_dhf {a b : ViewParams}
    (hd : a.distance = b.distance) (hh : a.height = b.height)
    (hf : a.fov = b.fov) : a = b := by
  cases a; cases b; simp_all

/-! Evaluation helpers for the coordinate transforms. -/

theorem sin_pi_add_pi_div_two : Real.sin (Real.pi + Real.pi / 2) = -1 := by
  rw [Real.sin_add]
  simp

theorem cos_pi_add_pi_div_two : Real.cos (Real.pi + Real.pi / 2) = 0 := by
  rw [Real.cos_add]
  simp

theorem rtrunc_of_Ico {x : ℝ} (h0 : 0 ≤ x) (h1 : x < 1) : rtrunc x = 0 := by
  unfold rtrunc
  rw [if_pos h0]
  exact Int.floor_eq_zero_iff.mpr ⟨h0, h1⟩

theorem rtrunc_of_neg {x : ℝ} (h0 : -1 < x) (h1 : x < 0) : rtrunc x = 0 := by
  unfold rtrunc
  rw [if_neg (by linarith)]
  have : ⌊-x⌋ = 0 := Int.floor_eq_zero_iff.mpr ⟨by linarith, by linarith⟩
  simp [this]

theorem rtrunc_one : rtrunc 1 = 1 := by
  unfold rtrunc
  norm_num

/-- `a % n = a` when `0 ≤ a < n`. -/
theorem jsMod_of_Ico {a n : ℝ} (hn : 0 < n) (h0 : 0 ≤ a) (h1 : a < n) :
    jsMod a n = a := by
  unfold jsMod
  rw [rtrunc_of_Ico (div_nonneg h0 hn.le) ((div_lt_one hn).mpr h1)]
  simp

/-- `a % n = a` when `-n < a < 0`: the JS remainder keeps the dividend's sign. -/
theorem jsMod_of_neg {a n : ℝ} (hn : 0 < n) (h0 : -n < a) (h1 : a < 0) :
    jsMod a n = a := by
  unfold jsMod
  rw [rtrunc_of_neg (by rw [neg_lt, ← neg_div]; exact (div_lt_one hn).mpr (by linarith))
    (div_neg_of_neg_of_pos h1 hn)]
  simp

/-- For a nonnegative dividend, `a % n` lands in `[0, n)`. -/
theorem jsMod_nonneg_lt {a n : ℝ} (hn : 0 < n) (h0 : 0 ≤ a) :
    0 ≤ jsMod a n ∧ jsMod a n < n := by
  unfold jsMod rtrunc
  rw [if_pos (div_nonneg h0 hn.le)]
  have hfr : a - n * ⌊a / n⌋ = n * Int.fract (a / n) := by
    unfold Int.fract
    field_simp
  rw [hfr]
  constructor
  · exact mul_nonneg hn.le (Int.fract_nonneg _)
  · calc n * Int.fract (a / n) < n * 1 :=
          (mul_lt_mul_left hn).mpr (Int.fract_lt_one _)
      _ = n := mul_one n

/-- Forward transform at latitude 0, longitude 90, altitude 0: the scene point
`(0, 0, -100)`. -/
theorem latLonToVector3_at_0_90 :
    Earth.latLonToVector3 0 90 0 = ⟨0, 0, -100⟩ := by
  unfold Earth.latLonToVector3 Earth.sceneRadius
  have hphi : (90 - (0 : ℝ)) * (Real.pi / 180) = Real.pi / 2 := by ring
  have htheta : ((90 : ℝ) + 180) * (Real.pi / 180) = Real.pi + Real.pi / 2 := by ring
  simp only [hphi, htheta, Real.sin_pi_div_two, Real.cos_pi_div_two,
    sin_pi_add_pi_div_two, cos_pi_add_pi_div_two]
  ext <;> norm_num

/-- Reverse transform at the scene point `(0, 0, -100)`: latitude 0,
longitude `-90`, altitude 0. -/
theorem vector3ToLatLon_at_0_0_neg100 :
    Earth.vector3ToLatLon ⟨0, 0, -100⟩ = (0, -90, 0) := by
  have hpi := Real.pi_ne_zero
  have hlen : (⟨0, 0, -100⟩ : V3).len = 100 := by
    unfold V3.len
    rw [show ((⟨0, 0, -100⟩ : V3).x ^ 2 + (⟨0, 0, -100⟩ : V3).y ^ 2 +
      (⟨0, 0, -100⟩ : V3).z ^ 2) = (100 : ℝ) ^ 2 by norm_num]
    exact Real.sqrt_sq (by norm_num)
  have hdeg : -(Real.pi / 2 * (180 / Real.pi)) - 180 + 360 = (90 : ℝ) := by
    field_simp
    ring
  have h90 : jsMod 90 360 = (90 : ℝ) :=
    jsMod_of_Ico (by norm_num) (by norm_num) (by norm_num)
  have hlat : 90 - Real.pi / 2 * (180 / Real.pi) = (0 : ℝ) := by
    field_simp
    ring
  simp only [Earth.vector3ToLatLon, Earth.sceneRadius, atan2, hlen]
  norm_num [Real.arccos_zero, hlat, hdeg, h90]

/-- C1: the reverse transform applied to the forward transform of
`(lat, lon, altitude) = (0, 90, 0)` — a non-pole point in the documented
ranges — returns longitude `-90`, not the original `90` (no epsilon saves a
180-degree error): the claimed round-trip property fails on the code.  The
latitude and altitude components do round-trip at this input. -/
theorem roundTrip_fails_at_lon90 :
    Earth.vector3ToLatLon (Earth.latLonToVector3 0 90 0) = (0, -90, 0) ∧
      ((-90 : ℝ) ≠ 90) := by
  refine ⟨?_, by norm_num⟩
  rw [latLonToVector3_at_0_90, vector3ToLatLon_at_0_0_neg100]

/-! ## C2: per-tick invariants of the flight dynamics model -/

theorem clamp_mem {v lo hi : ℝ} (h : lo ≤ hi) :
    lo ≤ clamp v lo hi ∧ clamp v lo hi ≤ hi :=
  ⟨le_max_left lo _, max_le h (min_le_left _ _)⟩

theorem updateCore_pitch (dt : ℝ) (spec : AircraftSpec) (st : AircraftState)
    (input : ControlInput) :
    (Aircraft.updateCore dt spec st input).pitch =
      (if input.pitch = 0
        then clamp (st.pitch + input.pitch * spec.handling * 60 * dt) (-80) 80 * 0.98
        else clamp (st.pitch + input.pitch * spec.handling * 60 * dt) (-80) 80) := by
  simp only [Aircraft.updateCore, Aircraft.newPitch]
  split_ifs <;> rfl

theorem updateCore_roll (dt : ℝ) (spec : AircraftSpec) (st : AircraftState)
    (input : ControlInput) :
    (Aircraft.updateCore dt spec st input).roll =
      (if input.roll = 0
        then clamp (st.roll + input.roll * spec.handling * 60 * dt) (-60) 60 * 0.98
        else clamp (st.roll + input.roll * spec.handling * 60 * dt) (-60) 60) := by
  simp only [Aircraft.updateCore, Aircraft.newRoll]
  split_ifs <;> rfl

theorem updateCore_speed (dt : ℝ) (spec : AircraftSpec) (st : AircraftState)
    (input : ControlInput) :
    (Aircraft.updateCore dt spec st input).speed =
      clamp (st.speed + (st.speed + input.throttle * 200 - st.speed) * dt)
        spec.minSpeed spec.maxSpeed := by
  simp only [Aircraft.updateCore, Aircraft.newSpeed]
  split_ifs <;> rfl

theorem updateCore_heading (dt : ℝ) (spec : AircraftSpec) (st : AircraftState)
    (input : ControlInput) :
    (Aircraft.updateCore dt spec st input).heading =
      jsMod (st.heading + input.yaw * spec.handling * 30 * dt +
        (st.roll + input.roll * spec.handling * 60 * dt) * 0.5 * dt + 360) 360 := by
  simp only [Aircraft.updateCore, Aircraft.newHeading]
  split_ifs <;> rfl

theorem updateCore_altitude_mem (dt : ℝ) (spec : AircraftSpec)
    (st : AircraftState) (input : ControlInput) :
    0.5 ≤ (Aircraft.updateCore dt spec st input).altitude ∧
      (Aircraft.updateCore dt spec st input).altitude ≤ 50 := by
  simp only [Aircraft.updateCore, Earth.sceneRadius]
  split_ifs <;>
    refine ⟨?_, ?_⟩ <;>
    dsimp only <;>
    first
      | (norm_num
         done)
      | (rename_i hlow hhigh
         push_neg at hlow hhigh
         linarith)

/-- C2 (amended): for every state, every control input with channels in
`[-1,1]`, and every `dt ≥ 0` — including arbitrarily large `dt` — a flying
`Aircraft.update` tick yields `pitch ∈ [-80,80]`, `roll ∈ [-60,60]`,
`speed ∈ [spec.minSpeed, spec.maxSpeed]`, and `altitude ∈ [0.5, 50]`; the
heading invariant `heading ∈ [0,360)` holds ONLY under the proviso that the
tick's pre-normalization heading stays at or above `-360` (the JS
normalization `(heading + 360) % 360` keeps the dividend's sign, so a large
negative heading change under a deliberately large `dt` escapes `[0,360)`;
see the counterexample).  The final conjunct connects the physics core to
`Aircraft.update` itself. -/
theorem update_invariants (dt : ℝ) (spec : AircraftSpec) (st : AircraftState)
    (input : ControlInput)
    (_hdt : 0 ≤ dt) (hspec : spec.minSpeed ≤ spec.maxSpeed)
    (_hp1 : -1 ≤ input.pitch) (_hp2 : input.pitch ≤ 1)
    (_hr1 : -1 ≤ input.roll) (_hr2 : input.roll ≤ 1)
    (_hy1 : -1 ≤ input.yaw) (_hy2 : input.yaw ≤ 1)
    (_ht1 : -1 ≤ input.throttle) (_ht2 : input.throttle ≤ 1) :
    (-80 ≤ (Aircraft.updateCore dt spec st input).pitch ∧
        (Aircraft.updateCore dt spec st input).pitch ≤ 80) ∧
      (-60 ≤ (Aircraft.updateCore dt spec st input).roll ∧
        (Aircraft.updateCore dt spec st input).roll ≤ 60) ∧
      (spec.minSpeed ≤ (Aircraft.updateCore dt spec st input).speed ∧
        (Aircraft.updateCore dt spec st input).speed ≤ spec.maxSpeed) ∧
      (0.5 ≤ (Aircraft.updateCore dt spec st input).altitude ∧
        (Aircraft.updateCore dt spec st input).altitude ≤ 50) ∧
      (0 ≤ st.heading + input.yaw * spec.handling * 30 * dt +
            (st.roll + input.roll * spec.handling * 60 * dt) * 0.5 * dt + 360 →
        0 ≤ (Aircraft.updateCore dt spec st input).heading ∧
          (Aircraft.updateCore dt spec st input).heading < 360) ∧
      (∀ m : AircraftModule, m.currentType = some spec →
        m.state.isFlying = true → m.hasMesh = true → m.state = st →
        Aircraft.update dt m input =
          .ok { m with state := Aircraft.updateCore dt spec st input }) := by
  refine ⟨?_, ?_, ?_, updateCore_altitude_mem dt spec st input, ?_, ?_⟩
  · rw [updateCore_pitch]
    have h := clamp_mem (v := st.pitch + input.pitch * spec.handling * 60 * dt)
      (show (-80 : ℝ) ≤ 80 by norm_num)
    split_ifs <;> constructor <;> linarith [h.1, h.2]
  · rw [updateCore_roll]
    have h := clamp_mem (v := st.roll + input.roll * spec.handling * 60 * dt)
      (show (-60 : ℝ) ≤ 60 by norm_num)
    split_ifs <;> constructor <;> linarith [h.1, h.2]
  · rw [updateCore_speed]
    exact clamp_mem hspec
  · intro hpre
    rw [updateCore_heading]
    exact jsMod_nonneg_lt (by norm_num) hpre
  · intro m hty hfly hmesh hstate
    unfold Aircraft.update
    rw [hfly, hmesh, hty, hstate]
    rfl

/-- `update_invariants` instantiated at `dt = 1`, the cessna spec, the
initial aircraft state, and zero input. -/
theorem update_invariants_witness :
    0.5 ≤ (Aircraft.updateCore 1 Aircraft.cessna Aircraft.initialState
        ⟨0, 0, 0, 0⟩).altitude ∧
      (Aircraft.updateCore 1 Aircraft.cessna Aircraft.initialState
        ⟨0, 0, 0, 0⟩).altitude ≤ 50 :=
  (update_invariants 1 Aircraft.cessna Aircraft.initialState ⟨0, 0, 0, 0⟩
    (by norm_num) (by norm_num [Aircraft.cessna]) (by norm_num) (by norm_num)
    (by norm_num) (by norm_num) (by norm_num) (by norm_num) (by norm_num)
    (by norm_num)).2.2.2.1

/-- C2 counterexample: full left yaw (`yaw = -1`, an allowed channel value)
for a single `dt = 20` tick — the deliberately large `dt` the claim
quantifies over — drives the pre-normalization heading to
`0 - 600 + 360 = -240`, and the JS remainder `(heading + 360) % 360`
returns `-240` itself: the post-tick heading is NOT in `[0, 360)`. -/
theorem update_heading_counterexample :
    (Aircraft.update 20 headingCexModule ⟨0, 0, -1, 0⟩).map
        (fun m => m.state.heading) = Except.ok (-240) ∧
      ¬(0 ≤ (-240 : ℝ) ∧ (-240 : ℝ) < 360) := by
  refine ⟨?_, by norm_num⟩
  have hstep : Aircraft.update 20 headingCexModule ⟨0, 0, -1, 0⟩ =
      .ok { headingCexModule with
        state := Aircraft.updateCore 20 Aircraft.cessna
          headingCexModule.state ⟨0, 0, -1, 0⟩ } := rfl
  rw [hstep]
  simp only [Except.map, Except.ok.injEq]
  rw [updateCore_heading]
  have harg : headingCexModule.state.heading +
      (⟨0, 0, -1, 0⟩ : ControlInput).yaw * Aircraft.cessna.handling * 30 * 20 +
      (headingCexModule.state.roll +
        (⟨0, 0, -1, 0⟩ : ControlInput).roll * Aircraft.cessna.handling * 60 * 20) *
        0.5 * 20 + 360 = (-240 : ℝ) := by
    norm_num [headingCexModule, Aircraft.cessna]
  rw [harg]
  exact jsMod_of_neg (by norm_num) (by norm_num) (by norm_num)

/-! ## C7: Scenario A -/

/-- `n % n = 0` for a positive modulus. -/
theorem jsMod_self {n : ℝ} (hn : 0 < n) : jsMod n n = 0 := by
  unfold jsMod
  rw [div_self hn.ne', rtrunc_one]
  push_cast
  ring

/-- Forward transform of the Scenario A takeoff point: latitude 0,
longitude 0, altitude 2 maps to the scene point `(102, 0, 0)`. -/
theorem latLonToVector3_at_0_0_2 :
    Earth.latLonToVector3 0 0 2 = ⟨102, 0, 0⟩ := by
  unfold Earth.latLonToVector3 Earth.sceneRadius
  have hphi : (90 - (0 : ℝ)) * (Real.pi / 180) = Real.pi / 2 := by ring
  have htheta : ((0 : ℝ) + 180) * (Real.pi / 180) = Real.pi := by ring
  simp only [hphi, htheta, Real.sin_pi_div_two, Real.cos_pi_div_two,
    Real.sin_pi, Real.cos_pi]
  ext <;> norm_num

/-- The YXZ Euler rotation by zero angles fixes the reference forward axis. -/
theorem applyEulerYXZ_zero :
    applyEulerYXZ 0 0 0 ⟨1, 0, 0⟩ = ⟨1, 0, 0⟩ := by
  unfold applyEulerYXZ rotX rotY rotZ
  ext <;> simp

theorem scenarioA_newSpeed :
    Aircraft.newSpeed 1 Aircraft.cessna scenarioAState zeroInput = 300 := by
  unfold Aircraft.newSpeed scenarioAState zeroInput Aircraft.cessna clamp
  norm_num

theorem scenarioA_newPitch :
    Aircraft.newPitch 1 Aircraft.cessna scenarioAState zeroInput = 0 := by
  unfold Aircraft.newPitch scenarioAState zeroInput Aircraft.cessna clamp
  norm_num

theorem scenarioA_newRoll :
    Aircraft.newRoll 1 Aircraft.cessna scenarioAState zeroInput = 0 := by
  unfold Aircraft.newRoll scenarioAState zeroInput Aircraft.cessna clamp
  norm_num

theorem scenarioA_newHeading :
    Aircraft.newHeading 1 Aircraft.cessna scenarioAState zeroInput = 0 := by
  unfold Aircraft.newHeading scenarioAState zeroInput Aircraft.cessna
  norm_num [jsMod_self]

theorem scenarioA_velocity :
    Aircraft.tickVelocity 1 Aircraft.cessna scenarioAState zeroInput =
      ⟨1 / 1200, 0, 0⟩ := by
  unfold Aircraft.tickVelocity Aircraft.tickForward
  rw [scenarioA_newSpeed, scenarioA_newPitch, scenarioA_newRoll,
    scenarioA_newHeading]
  rw [show degToRad 0 = 0 by unfold degToRad; ring, applyEulerYXZ_zero]
  unfold V3.smul
  ext <;> norm_num

theorem scenarioA_updateCore :
    Aircraft.updateCore 1 Aircraft.cessna scenarioAState zeroInput =
      { scenarioAState with
          position := ⟨102 + 1 / 1200, 0, 0⟩,
          velocity := ⟨1 / 1200, 0, 0⟩,
          altitude := 2 + 1 / 1200 } := by
  simp only [Aircraft.updateCore]
  rw [scenarioA_velocity]
  rw [show V3.add scenarioAState.position ⟨1 / 1200, 0, 0⟩ =
      (⟨102 + 1 / 1200, 0, 0⟩ : V3) by
    rw [show scenarioAState.position = Earth.latLonToVector3 0 0 2 from rfl,
      latLonToVector3_at_0_0_2]
    unfold V3.add
    ext <;> norm_num]
  rw [show (⟨102 + 1 / 1200, 0, 0⟩ : V3).len = 102 + 1 / 1200 by
    unfold V3.len
    rw [show ((⟨102 + 1 / 1200, 0, 0⟩ : V3).x ^ 2 +
        (⟨102 + 1 / 1200, 0, 0⟩ : V3).y ^ 2 +
        (⟨102 + 1 / 1200, 0, 0⟩ : V3).z ^ 2) = ((102 : ℝ) + 1 / 1200) ^ 2 by
      norm_num]
    exact Real.sqrt_sq (by norm_num)]
  rw [if_neg (by unfold Earth.sceneRadius; norm_num),
    if_neg (by unfold Earth.sceneRadius; norm_num)]
  rw [scenarioA_newSpeed, scenarioA_newPitch, scenarioA_newRoll,
    scenarioA_newHeading]
  unfold Earth.sceneRadius scenarioAState
  norm_num

/-- C7, Scenario A: with the aircraft at latitude 0, longitude 0, altitude 2,
heading/pitch/roll 0, speed 300 km/h, all channels zero and `dt = 1` s, one
`Aircraft.update` call advances the position by exactly
`(speed/3600 * dt * 0.01)` scene units along the initial forward unit vector
(the YXZ-Euler image of `(1,0,0)` at zero angles), and the resulting
altitude `2 + 1/1200` stays inside `[0.5, 50]`. -/
theorem scenarioA_position_advance :
    (Aircraft.update 1 scenarioAModule zeroInput).map
        (fun m => m.state.position) =
      Except.ok (V3.add (Earth.latLonToVector3 0 0 2)
        (V3.smul (300 / 3600 * 1 * 0.01) (applyEulerYXZ 0 0 0 ⟨1, 0, 0⟩))) ∧
      (Aircraft.update 1 scenarioAModule zeroInput).map
        (fun m => m.state.altitude) = Except.ok (2 + 1 / 1200) ∧
      (0.5 ≤ (2 : ℝ) + 1 / 1200 ∧ (2 : ℝ) + 1 / 1200 ≤ 50) := by
  have hstep : Aircraft.update 1 scenarioAModule zeroInput =
      .ok { scenarioAModule with
        state := Aircraft.updateCore 1 Aircraft.cessna scenarioAState
          zeroInput } := rfl
  rw [hstep]
  refine ⟨?_, ?_, by norm_num, by norm_num⟩
  · simp only [Except.map, Except.ok.injEq, scenarioA_updateCore]
    rw [latLonToVector3_at_0_0_2, applyEulerYXZ_zero]
    unfold V3.add V3.smul
    ext <;> norm_num
  · simp only [Except.map, Except.ok.injEq, scenarioA_updateCore]

/-! ## C4: precondition handling for a missing / invalid AircraftSpec -/

/-- C4 counterexample: selecting the aircraft type `"helicopter"`, which is
outside the closed set `{cessna, airliner, jet}`, before takeoff is NOT
reported to the caller as a precondition failure: `setType` resolves it by
silently substituting the default cessna spec (the JS logs a console
warning and proceeds), so the subsequent flight uses cessna parameters. -/
theorem setType_unknown_silently_defaults :
    (Aircraft.setType "helicopter" Aircraft.initialModule).currentType =
      some Aircraft.cessna ∧
      (Aircraft.setType "helicopter" Aircraft.initialModule).state.speed =
        Aircraft.cessna.speed := by
  constructor <;> rfl

/-- C4 (amended): invoking `takeoff` when no AircraftSpec was ever selected
(`currentType` still `null`) is a precondition failure reported to the
caller (a thrown `TypeError`), but selecting an aircraft type outside the
closed set `{cessna, airliner, jet}` is NOT reported as a failure:
`setType` silently substitutes the default `cessna` spec. -/
theorem takeoff_requires_spec (airport : ℝ × ℝ) (now : ℝ) (m : AircraftModule)
    (hnone : m.currentType = none) (t : String)
    (ht : Aircraft.types t = none) :
    Aircraft.takeoff airport now m =
        .error "TypeError: Cannot read properties of null (reading speed)" ∧
      (Aircraft.setType t m).currentType = some Aircraft.cessna := by
  constructor
  · unfold Aircraft.takeoff
    rw [hnone]
  · unfold Aircraft.setType
    rw [ht]
    rfl

/-- `takeoff_requires_spec` at the pristine module and the invalid type
`"balloon"`. -/
theorem takeoff_requires_spec_witness :
    Aircraft.takeoff (0, 0) 0 Aircraft.initialModule =
        .error "TypeError: Cannot read properties of null (reading speed)" ∧
      (Aircraft.setType "balloon" Aircraft.initialModule).currentType =
        some Aircraft.cessna :=
  takeoff_requires_spec (0, 0) 0 Aircraft.initialModule rfl "balloon" rfl

/-! ## C10: update is a no-op when not flying -/

/-- C10: whenever the flight-active flag is false or no aircraft mesh has
been created, `Aircraft.update` returns immediately and leaves every field
of the module — the whole aircraft state record included — unchanged, for
every tick duration and every input. -/
theorem update_noop_when_not_flying (dt : ℝ) (m : AircraftModule)
    (input : ControlInput)
    (h : m.state.isFlying = false ∨ m.hasMesh = false) :
    Aircraft.update dt m input = .ok m := by
  unfold Aircraft.update
  rcases h with h | h <;> rw [h] <;> simp

/-- `update_noop_when_not_flying` on the parked initial module with a large
`dt` and saturated input. -/
theorem update_noop_witness :
    Aircraft.update 5 Aircraft.initialModule ⟨1, 1, 1, 1⟩ =
      .ok Aircraft.initialModule :=
  update_noop_when_not_flying 5 Aircraft.initialModule ⟨1, 1, 1, 1⟩
    (Or.inl rfl)

/-- Closed form of iterating the smoothing step under a constant target:
geometric approach with ratio `0.98`. -/
theorem stepOpacity_iterate (t o : ℝ) (n : ℕ) :
    (Earth.stepOpacity t)^[n] o = t + 0.98 ^ n * (o - t) := by
  induction n with
  | zero => simp
  | succ n ih =>
      rw [Function.iterate_succ_apply', ih]
      unfold Earth.stepOpacity
      ring

/-- Under a constant target the stored opacity converges to the target. -/
theorem stepOpacity_tendsto (t o : ℝ) :
    Filter.Tendsto (fun n => (Earth.stepOpacity t)^[n] o)
      Filter.atTop (nhds t) := by
  simp only [stepOpacity_iterate]
  have hpow : Filter.Tendsto (fun n : ℕ => (0.98 : ℝ) ^ n)
      Filter.atTop (nhds 0) :=
    tendsto_pow_atTop_nhds_zero_of_lt_one (by norm_num) (by norm_num)
  have hmul := hpow.mul_const (o - t)
  rw [zero_mul] at hmul
  have := Filter.Tendsto.const_add t hmul
  rwa [add_zero] at this

/-- C5: each `Earth.updateDayNight` call derives the local solar hour as
`(UTCHour + longitude/15 + 24) mod 24` and a target opacity — in `"auto"`
mode 1 outside the daylight window, 0 on all of `(7,18)` (hence inside
`(7+ε, 18-ε)`), and linear ramps on the dawn `[6,7]` and dusk `[18,19]`
windows; `"day"` forces 0 and `"night"` forces 1 regardless of hour.  The
stored opacity then moves toward the target by the fixed per-tick step
`2%` of the remaining gap (an exponential approach; never a snap), so under
a constant target it converges: to 0 at local solar hour 12 in auto, to 1
at hour 0 in auto, and to 0 in `"day"` mode at any hour. -/
theorem updateDayNight_spec (h o utc lon : ℝ) (mode : String) :
    Earth.getLocalHour utc lon = jsMod (utc + lon / 15 + 24) 24 ∧
      Earth.nightTargetOpacity "day" h = 0 ∧
      Earth.nightTargetOpacity "night" h = 1 ∧
      (6 ≤ h → h ≤ 7 → Earth.nightTargetOpacity "auto" h = 1 - (h - 6)) ∧
      (18 ≤ h → h ≤ 19 → Earth.nightTargetOpacity "auto" h = h - 18) ∧
      (7 < h → h < 18 → Earth.nightTargetOpacity "auto" h = 0) ∧
      (0 ≤ h → h < 6 → Earth.nightTargetOpacity "auto" h = 1) ∧
      (19 < h → Earth.nightTargetOpacity "auto" h = 1) ∧
      Earth.updateDayNight true o mode lon utc =
        o + (Earth.nightTargetOpacity mode (Earth.getLocalHour utc lon) - o)
          * 0.02 ∧
      Filter.Tendsto
        (fun n => (Earth.stepOpacity (Earth.nightTargetOpacity "auto" 12))^[n] o)
        Filter.atTop (nhds 0) ∧
      Filter.Tendsto
        (fun n => (Earth.stepOpacity (Earth.nightTargetOpacity "auto" 0))^[n] o)
        Filter.atTop (nhds 1) ∧
      Filter.Tendsto
        (fun n => (Earth.stepOpacity (Earth.nightTargetOpacity "day" h))^[n] o)
        Filter.atTop (nhds 0) := by
  have hday : ∀ x : ℝ, Earth.nightTargetOpacity "day" x = 0 := by
    intro x
    unfold Earth.nightTargetOpacity
    rw [if_neg (by decide), if_pos rfl]
  have hauto12 : Earth.nightTargetOpacity "auto" 12 = 0 := by
    unfold Earth.nightTargetOpacity
    rw [if_neg (by decide), if_neg (by decide),
      if_neg (by norm_num), if_neg (by norm_num), if_pos (by norm_num)]
  have hauto0 : Earth.nightTargetOpacity "auto" 0 = 1 := by
    unfold Earth.nightTargetOpacity
    rw [if_neg (by decide), if_neg (by decide),
      if_neg (by norm_num), if_neg (by norm_num), if_neg (by norm_num)]
  refine ⟨rfl, hday h, ?_, ?_, ?_, ?_, ?_, ?_, ?_, ?_, ?_, ?_⟩
  · unfold Earth.nightTargetOpacity
    rw [if_pos rfl]
  · intro h1 h2
    unfold Earth.nightTargetOpacity
    rw [if_neg (by decide), if_neg (by decide), if_pos ⟨h1, h2⟩]
  · intro h1 h2
    unfold Earth.nightTargetOpacity
    rw [if_neg (by decide), if_neg (by decide),
      if_neg (fun hc => by linarith [hc.2]), if_pos ⟨h1, h2⟩]
  · intro h1 h2
    unfold Earth.nightTargetOpacity
    rw [if_neg (by decide), if_neg (by decide),
      if_neg (fun hc => by linarith [hc.2]),
      if_neg (fun hc => by linarith [hc.1]), if_pos ⟨h1, h2⟩]
  · intro h1 h2
    unfold Earth.nightTargetOpacity
    rw [if_neg (by decide), if_neg (by decide),
      if_neg (fun hc => by linarith [hc.1]),
      if_neg (fun hc => by linarith [hc.1]),
      if_neg (fun hc => by linarith [hc.1])]
  · intro h1
    unfold Earth.nightTargetOpacity
    rw [if_neg (by decide), if_neg (by decide),
      if_neg (fun hc => by linarith [hc.2]),
      if_neg (fun hc => by linarith [hc.2]),
      if_neg (fun hc => by linarith [hc.2])]
  · unfold Earth.updateDayNight Earth.stepOpacity
    simp
  · rw [hauto12]
    exact stepOpacity_tendsto 0 o
  · rw [hauto0]
    exact stepOpacity_tendsto 1 o
  · rw [hday h]
    exact stepOpacity_tendsto 0 o

/-- `updateDayNight_spec` instantiated in the dawn window: at local solar
hour 6.5 the auto target is the mid-ramp value 0.5. -/
theorem updateDayNight_spec_witness :
    Earth.nightTargetOpacity "auto" 6.5 = 1 - (6.5 - 6) :=
  ((updateDayNight_spec 6.5 0 12 0 "auto").2.2.2.1) (by norm_num) (by norm_num)

/-! ## C3: the flight-phase signal and camera shake -/

theorem transStage_shake (dt : ℝ) (m : CameraModule) :
    (Camera.transStage dt m).shakeIntensity = m.shakeIntensity ∧
      (Camera.transStage dt m).shakeTime = m.shakeTime := by
  unfold Camera.transStage
  split_ifs <;> exact ⟨rfl, rfl⟩

theorem fovStage_shake (speed maxSpeed : ℝ) (m : CameraModule) :
    (Camera.fovStage speed maxSpeed m).shakeIntensity = m.shakeIntensity ∧
      (Camera.fovStage speed maxSpeed m).shakeTime = m.shakeTime :=
  ⟨rfl, rfl⟩

/-- C3: on every per-tick camera update during active flight, the attempt to
obtain a flight-phase signal from the flight dynamics model fails — the
Aircraft module defines no `getFlightPhase` — so `Camera.update` throws a
`TypeError` and no shake target intensity is ever set from a phase: the
shake fields come out exactly as they went in, in every phase situation. -/
theorem cameraUpdate_flightPhase_throws (m : CameraModule)
    (a : AircraftModule) (spec : AircraftSpec) (dt : ℝ)
    (hfly : a.state.isFlying = true) (hgrp : a.hasGroup = true)
    (hty : a.currentType = some spec) :
    (Camera.update m a dt).2 =
        .error "TypeError: aircraft.getFlightPhase is not a function" ∧
      (Camera.update m a dt).1.shakeIntensity = m.shakeIntensity ∧
      (Camera.update m a dt).1.shakeTime = m.shakeTime := by
  have hupd : Camera.update m a dt =
      (Camera.fovStage a.state.speed spec.maxSpeed (Camera.transStage dt m),
        .error "TypeError: aircraft.getFlightPhase is not a function") := by
    unfold Camera.update
    rw [hfly, hgrp, hty]
    rfl
  rw [hupd]
  refine ⟨rfl, ?_, ?_⟩
  · rw [(fovStage_shake _ _ _).1, (transStage_shake _ _).1]
  · rw [(fovStage_shake _ _ _).2, (transStage_shake _ _).2]

/-- `cameraUpdate_flightPhase_throws` at the initial camera and the flying
Scenario A aircraft. -/
theorem cameraUpdate_flightPhase_throws_witness :
    (Camera.update cameraInitial scenarioAModule (1 / 60)).2 =
        .error "TypeError: aircraft.getFlightPhase is not a function" ∧
      (Camera.update cameraInitial scenarioAModule (1 / 60)).1.shakeIntensity =
        cameraInitial.shakeIntensity ∧
      (Camera.update cameraInitial scenarioAModule (1 / 60)).1.shakeTime =
        cameraInitial.shakeTime :=
  cameraUpdate_flightPhase_throws cameraInitial scenarioAModule
    Aircraft.cessna (1 / 60) rfl rfl rfl

/-! ## C8: setView idempotence -/

/-- C8: for every view in the fixed view list, a second consecutive
`setView` with the same view and `animate = true` produces no new
transition — the whole transition record (its `active`, `progress`, `src`,
`dst`, `duration` fields included) is exactly the one left by the first
call, because the first call set `currentView` to the view, so the second
call takes the non-animating branch. -/
theorem setView_twice_no_new_transition (v : String) (hv : v ∈ Camera.views)
    (m : CameraModule) :
    (Camera.setView v true (Camera.setView v true m)).transition =
        (Camera.setView v true m).transition ∧
      (Camera.setView v true m).currentView = v := by
  have hmem : ¬v ∉ Camera.views := fun hc => hc hv
  have hcv : (Camera.setView v true m).currentView = v := by
    unfold Camera.setView
    rw [if_neg hmem]
    split_ifs <;> rfl
  refine ⟨?_, hcv⟩
  conv_lhs => rw [Camera.setView]
  rw [if_neg hmem]
  rw [show (true && ((Camera.setView v true m).currentView != v)) = false by
    rw [hcv]
    simp]
  rw [if_neg (by simp)]

/-- `setView_twice_no_new_transition` at the cockpit view and the initial
camera module. -/
theorem setView_twice_witness :
    (Camera.setView "cockpit" true
        (Camera.setView "cockpit" true cameraInitial)).transition =
        (Camera.setView "cockpit" true cameraInitial).transition ∧
      (Camera.setView "cockpit" true cameraInitial).currentView = "cockpit" :=
  setView_twice_no_new_transition "cockpit" (by decide) cameraInitial

/-! ## C6: camera transition completeness -/

theorem lerp_one (a b : ℝ) : lerp a b 1 = b := by
  unfold lerp
  ring

theorem easeInOutCubic_one : Camera.easeInOutCubic 1 = 1 := by
  unfold Camera.easeInOutCubic
  norm_num

theorem transStage_inactive (dt : ℝ) (m : CameraModule)
    (h : m.transition.active = false) : Camera.transStage dt m = m := by
  unfold Camera.transStage
  rw [h]
  rfl

theorem fovStage_stateTrans (speed maxSpeed : ℝ) (m : CameraModule) :
    (Camera.fovStage speed maxSpeed m).state = m.state ∧
      (Camera.fovStage speed maxSpeed m).transition = m.transition :=
  ⟨rfl, rfl⟩

theorem cameraUpdate_fst (m : CameraModule) (a : AircraftModule)
    (spec : AircraftSpec) (dt : ℝ) (hfly : a.state.isFlying = true)
    (hgrp : a.hasGroup = true) (hty : a.currentType = some spec) :
    (Camera.update m a dt).1 =
      Camera.fovStage a.state.speed spec.maxSpeed (Camera.transStage dt m) := by
  unfold Camera.update
  rw [hfly, hgrp, hty]
  rfl

/-- Completing tick: when the advanced progress reaches 1, the transition
deactivates at progress 1 and the state snaps to exactly the destination
parameters (`easeInOutCubic 1 = 1`, `lerp _ b 1 = b`). -/
theorem transStage_complete (dt : ℝ) (m : CameraModule)
    (hact : m.transition.active = true)
    (hc : 1 ≤ m.transition.progress + dt / m.transition.duration) :
    Camera.transStage dt m =
      { m with
          transition := { m.transition with active := false, progress := 1 },
          state := m.transition.dst,
          baseFOV := m.transition.dst.fov } := by
  simp only [Camera.transStage]
  rw [hact, if_pos rfl, if_pos hc, if_pos hc, easeInOutCubic_one,
    lerp_one, lerp_one, lerp_one]

/-- Mid-transition tick: progress advances by exactly `dt/duration` and the
state fields are the ease-in-out-cubic interpolants at the new progress. -/
theorem transStage_mid (dt : ℝ) (m : CameraModule)
    (hact : m.transition.active = true)
    (hc : ¬1 ≤ m.transition.progress + dt / m.transition.duration) :
    Camera.transStage dt m =
      { m with
          transition :=
            { m.transition with
                active := true,
                progress := m.transition.progress + dt / m.transition.duration },
          state :=
            ⟨lerp m.transition.src.distance m.transition.dst.distance
                (Camera.easeInOutCubic
                  (m.transition.progress + dt / m.transition.duration)),
              lerp m.transition.src.height m.transition.dst.height
                (Camera.easeInOutCubic
                  (m.transition.progress + dt / m.transition.duration)),
              lerp m.transition.src.fov m.transition.dst.fov
                (Camera.easeInOutCubic
                  (m.transition.progress + dt / m.transition.duration))⟩,
          baseFOV :=
            lerp m.transition.src.fov m.transition.dst.fov
              (Camera.easeInOutCubic
                (m.transition.progress + dt / m.transition.duration)) } := by
  simp only [Camera.transStage]
  rw [hact, if_pos rfl, if_neg hc, if_neg hc]

theorem tickFold_inactive (a : AircraftModule) (spec : AircraftSpec)
    (hfly : a.state.isFlying = true) (hgrp : a.hasGroup = true)
    (hty : a.currentType = some spec) :
    ∀ (L : List ℝ) (m : CameraModule), m.transition.active = false →
      (Camera.tickFold a m L).state = m.state ∧
        (Camera.tickFold a m L).transition = m.transition := by
  intro L
  induction L with
  | nil => exact fun m _ => ⟨rfl, rfl⟩
  | cons dt L ih =>
      intro m h
      unfold Camera.tickFold at ih ⊢
      rw [List.foldl_cons, cameraUpdate_fst m a spec dt hfly hgrp hty,
        transStage_inactive dt m h]
      obtain ⟨hs, ht⟩ := ih (Camera.fovStage a.state.speed spec.maxSpeed m)
        (by rw [(fovStage_stateTrans a.state.speed spec.maxSpeed m).2]; exact h)
      rw [hs, ht, (fovStage_stateTrans a.state.speed spec.maxSpeed m).1,
        (fovStage_stateTrans a.state.speed spec.maxSpeed m).2]
      exact ⟨rfl, rfl⟩

theorem tickFold_completes (a : AircraftModule) (spec : AircraftSpec)
    (hfly : a.state.isFlying = true) (hgrp : a.hasGroup = true)
    (hty : a.currentType = some spec) :
    ∀ (L : List ℝ) (m : CameraModule),
      m.transition.active = true →
      0 ≤ m.transition.progress → m.transition.progress < 1 →
      0 < m.transition.duration →
      (∀ dt ∈ L, 0 ≤ dt) →
      m.transition.progress + L.sum / m.transition.duration = 1 →
      (Camera.tickFold a m L).state = m.transition.dst ∧
        (Camera.tickFold a m L).transition.active = false ∧
        (Camera.tickFold a m L).transition.progress = 1 := by
  intro L
  induction L with
  | nil =>
      intro m hact hp0 hp1 hd hL hsum
      rw [List.sum_nil, zero_div, add_zero] at hsum
      exact absurd hsum (ne_of_lt hp1)
  | cons dt L ih =>
      intro m hact hp0 hp1 hd hL hsum
      have hdt0 : 0 ≤ dt := hL dt (List.mem_cons_self dt L)
      have hLrest : ∀ x ∈ L, 0 ≤ x := fun x hx => hL x (List.mem_cons_of_mem dt hx)
      have hsum0 : 0 ≤ L.sum := List.sum_nonneg hLrest
      rw [List.sum_cons] at hsum
      have hp1le : m.transition.progress + dt / m.transition.duration ≤ 1 := by
        have hmono : dt / m.transition.duration ≤
            (dt + L.sum) / m.transition.duration :=
          (div_le_div_iff_of_pos_right hd).mpr (by linarith)
        linarith
      unfold Camera.tickFold
      rw [List.foldl_cons, cameraUpdate_fst m a spec dt hfly hgrp hty]
      by_cases hc : 1 ≤ m.transition.progress + dt / m.transition.duration
      · rw [transStage_complete dt m hact hc]
        obtain ⟨hs, ht⟩ := tickFold_inactive a spec hfly hgrp hty L
          (Camera.fovStage a.state.speed spec.maxSpeed
            { m with
                transition := { m.transition with active := false, progress := 1 },
                state := m.transition.dst,
                baseFOV := m.transition.dst.fov })
          (by rw [(fovStage_stateTrans _ _ _).2])
        unfold Camera.tickFold at hs ht
        rw [hs, ht, (fovStage_stateTrans _ _ _).1,
          (fovStage_stateTrans _ _ _).2]
        exact ⟨rfl, rfl, rfl⟩
      · rw [transStage_mid dt m hact hc]
        have hrec := ih (Camera.fovStage a.state.speed spec.maxSpeed
            { m with
                transition :=
                  { m.transition with
                      active := true,
                      progress :=
                        m.transition.progress + dt / m.transition.duration },
                state :=
                  ⟨lerp m.transition.src.distance m.transition.dst.distance
                      (Camera.easeInOutCubic
                        (m.transition.progress + dt / m.transition.duration)),
                    lerp m.transition.src.height m.transition.dst.height
                      (Camera.easeInOutCubic
                        (m.transition.progress + dt / m.transition.duration)),
                    lerp m.transition.src.fov m.transition.dst.fov
                      (Camera.easeInOutCubic
                        (m.transition.progress + dt / m.transition.duration))⟩,
                baseFOV :=
                  lerp m.transition.src.fov m.transition.dst.fov
                    (Camera.easeInOutCubic
                      (m.transition.progress + dt / m.transition.duration)) })
          rfl
          (by dsimp only [Camera.fovStage]
              exact add_nonneg hp0 (div_nonneg hdt0 hd.le))
          (by dsimp only [Camera.fovStage]
              exact lt_of_not_ge hc)
          (by dsimp only [Camera.fovStage]
              exact hd)
          hLrest
          (by dsimp only [Camera.fovStage]
              rw [add_div] at hsum
              linarith)
        unfold Camera.tickFold at hrec
        exact hrec

/-- C6: during active flight, once per-tick camera updates have accumulated
exactly `duration` seconds (under any partition into nonnegative `dt`s,
starting from a fresh transition at progress 0), the interpolated camera
parameters equal the target view's static parameters exactly (hence within
any epsilon) and the transition has become inactive at progress 1; while a
transition stays active, each tick advances progress by exactly
`dt/duration` and sets the parameters to the ease-in-out-cubic interpolants,
where the curve is `4t³` for `t < 0.5` and `1 - (-2t+2)³/2` otherwise. -/
theorem cameraTransition_completeness (a : AircraftModule)
    (spec : AircraftSpec) (hfly : a.state.isFlying = true)
    (hgrp : a.hasGroup = true) (hty : a.currentType = some spec)
    (L : List ℝ) (m : CameraModule) (hact : m.transition.active = true)
    (hp0 : m.transition.progress = 0) (hd : 0 < m.transition.duration)
    (hL : ∀ dt ∈ L, 0 ≤ dt) (hsum : L.sum = m.transition.duration) :
    ((Camera.tickFold a m L).state = m.transition.dst ∧
        (Camera.tickFold a m L).transition.active = false ∧
        (Camera.tickFold a m L).transition.progress = 1) ∧
      (∀ (c : CameraModule) (dt : ℝ), c.transition.active = true →
        c.transition.progress + dt / c.transition.duration < 1 →
        ((Camera.update c a dt).1.transition.progress =
            c.transition.progress + dt / c.transition.duration ∧
          (Camera.update c a dt).1.state.distance =
            lerp c.transition.src.distance c.transition.dst.distance
              (Camera.easeInOutCubic
                (c.transition.progress + dt / c.transition.duration)) ∧
          (Camera.update c a dt).1.state.height =
            lerp c.transition.src.height c.transition.dst.height
              (Camera.easeInOutCubic
                (c.transition.progress + dt / c.transition.duration)) ∧
          (Camera.update c a dt).1.state.fov =
            lerp c.transition.src.fov c.transition.dst.fov
              (Camera.easeInOutCubic
                (c.transition.progress + dt / c.transition.duration)))) ∧
      (∀ t : ℝ, (t < 0.5 → Camera.easeInOutCubic t = 4 * t ^ 3) ∧
        (¬t < 0.5 → Camera.easeInOutCubic t = 1 - (-2 * t + 2) ^ 3 / 2)) := by
  refine ⟨?_, ?_, ?_⟩
  · exact tickFold_completes a spec hfly hgrp hty L m hact
      (by rw [hp0]) (by rw [hp0]; norm_num) hd hL
      (by rw [hp0, hsum, div_self hd.ne', zero_add])
  · intro c dt hcact hclt
    rw [cameraUpdate_fst c a spec dt hfly hgrp hty,
      transStage_mid dt c hcact (not_le.mpr hclt)]
    exact ⟨rfl, rfl, rfl, rfl⟩
  · intro t
    constructor
    · intro h
      unfold Camera.easeInOutCubic
      rw [if_pos h]
      ring
    · intro h
      unfold Camera.easeInOutCubic
      rw [if_neg h]

/-- `cameraTransition_completeness` at the flying Scenario A aircraft, the
transition above, and the two-tick partition `[0.25, 0.25]` of its 0.5 s
duration. -/
theorem cameraTransition_completeness_witness :
    (Camera.tickFold scenarioAModule cameraTransModule [0.25, 0.25]).state =
        cameraTransModule.transition.dst ∧
      (Camera.tickFold scenarioAModule cameraTransModule
        [0.25, 0.25]).transition.active = false ∧
      (Camera.tickFold scenarioAModule cameraTransModule
        [0.25, 0.25]).transition.progress = 1 :=
  (cameraTransition_completeness scenarioAModule Aircraft.cessna rfl rfl rfl
    [0.25, 0.25] cameraTransModule rfl rfl (by norm_num [cameraTransModule])
    (by intro dt hdt
        simp only [List.mem_cons, List.not_mem_nil, or_false] at hdt
        rcases hdt with h | h <;> rw [h] <;> norm_num)
    (by norm_num [cameraTransModule, List.sum_cons, List.sum_nil])).1

/-- C9: within a tick, the camera update and the illumination update leave
the aircraft module — hence every field of the aircraft-state record
(position, velocity, rotation, speed, altitude, heading, pitch, roll, the
flight-active flag, the takeoff/destination airports and the flight-start
timestamp) — unchanged, for every world, tick duration, mode and clock:
only the Flight Dynamics Model writes that record. -/
theorem camera_earth_preserve_aircraft (w : World) (dt : ℝ) (mode : String)
    (utc : ℝ) :
    (Camera.updateW w dt).aircraft = w.aircraft ∧
      (Earth.updateDayNightW w mode utc).aircraft = w.aircraft ∧
      (Camera.updateW w dt).aircraft.state = w.aircraft.state ∧
      (Earth.updateDayNightW w mode utc).aircraft.state = w.aircraft.state :=
  ⟨rfl, rfl, rfl, rfl⟩
